import Mathlib

/-!
Verification of the K-Pop Idol API service (src/main.py) against its
natural-language specification. The single source file defines one ORM row
class (KpopIdol, table kpop_idol_followers) and five GET handlers; each is
embedded below as a pure Lean function from its inputs and the table state
(a list of rows) to a response. SQL evaluation is modelled at face value:
LIKE is the %/_ wildcard matcher, and NULL collapses to "not matched" in
predicates, per the backend's three-valued logic.
-/

set_option maxHeartbeats 1000000

/-- A calendar value stored in a DATETIME column. Time-of-day is omitted:
no endpoint inspects more than the year, month and day. -/
structure DateTimeV where
  year : Int
  month : Int
  day : Int
  deriving DecidableEq

/-- One row of the kpop_idol_followers table (class KpopIdol, src/main.py
lines 24-48). Stage_Name is the primary key, hence non-null; every other
column is nullable. -/
structure KpopIdol where
  Stage_Name : String
  Group : Option String
  ig_name : Option String
  Followers : Option Int
  Gender_x : Option String
  Full_Name : Option String
  Korean_Name : Option String
  K_Stage_Name : Option String
  Date_of_Birth : Option DateTimeV
  Debut : Option DateTimeV
  Company : Option String
  Country : Option String
  Second_Country : Option String
  Height : Option String
  Weight : Option String
  Birthplace : Option String
  Other_Group : Option String
  Former_Group : Option String
  Gender_y : Option String
  age : Option Int
  year_career : Option Int
  deriving DecidableEq

/-- The declared column names of the table, in declaration order
(KpopIdol.__table__.columns). -/
def table_columns : List String :=
  ["Stage_Name", "Group", "ig_name", "Followers", "Gender_x", "Full_Name",
   "Korean_Name", "K_Stage_Name", "Date_of_Birth", "Debut", "Company",
   "Country", "Second_Country", "Height", "Weight", "Birthplace",
   "Other_Group", "Former_Group", "Gender_y", "age", "year_career"]

/-- A SQL value as it appears in a serialized JSON response. -/
inductive Value where
  | vStr (s : String)
  | vInt (n : Int)
  | vDate (d : DateTimeV)
  deriving DecidableEq

/-- A parameter bound to a query (the values of the params dict passed to
db.execute). -/
inductive Param where
  | pS (s : String)
  | pI (n : Int)
  deriving DecidableEq

/-- Outcome of a request handler: HTTP 200 with a JSON list of row
mappings, or an HTTPException carrying a status code and detail message. -/
inductive Resp where
  | ok (rows : List (List (String × Option Value)))
  | err (code : Nat) (detail : String)
  deriving DecidableEq

/-- Predicate picking out a 400 (bad-request) response. -/
def is400 : Resp → Bool
  | Resp.err 400 _ => true
  | _ => false

/-- Predicate picking out a 200 (success) response. -/
def isOk : Resp → Bool
  | Resp.ok _ => true
  | _ => false

/-- Serialization of one row: the dict comprehension over the instance's
attributes (src/main.py line 73 and its copies) yields every declared
column as a key, in declaration order, with null (none) for missing
values. -/
def rowToMapping (r : KpopIdol) : List (String × Option Value) :=
  [("Stage_Name", some (Value.vStr r.Stage_Name)),
   ("Group", r.Group.map Value.vStr),
   ("ig_name", r.ig_name.map Value.vStr),
   ("Followers", r.Followers.map Value.vInt),
   ("Gender_x", r.Gender_x.map Value.vStr),
   ("Full_Name", r.Full_Name.map Value.vStr),
   ("Korean_Name", r.Korean_Name.map Value.vStr),
   ("K_Stage_Name", r.K_Stage_Name.map Value.vStr),
   ("Date_of_Birth", r.Date_of_Birth.map Value.vDate),
   ("Debut", r.Debut.map Value.vDate),
   ("Company", r.Company.map Value.vStr),
   ("Country", r.Country.map Value.vStr),
   ("Second_Country", r.Second_Country.map Value.vStr),
   ("Height", r.Height.map Value.vStr),
   ("Weight", r.Weight.map Value.vStr),
   ("Birthplace", r.Birthplace.map Value.vStr),
   ("Other_Group", r.Other_Group.map Value.vStr),
   ("Former_Group", r.Former_Group.map Value.vStr),
   ("Gender_y", r.Gender_y.map Value.vStr),
   ("age", r.age.map Value.vInt),
   ("year_career", r.year_career.map Value.vInt)]

/-- Python truthiness of an optional string argument: None and the empty
string are falsy. -/
def truthyS (o : Option String) : Bool := o.getD "" != ""

/-- Python truthiness of an optional integer argument: None and 0 are
falsy. -/
def truthyI (o : Option Int) : Bool := o.getD 0 != 0

/-- One wildcard step: does the continuation accept some suffix of the
character list? -/
def likeStar (f : List Char → Bool) : List Char → Bool
  | [] => f []
  | c :: s => f (c :: s) || likeStar f s

/-- SQL LIKE pattern matching over character lists: % matches any
sequence, _ matches any single character, every other character matches
itself. -/
def likeMatch : List Char → List Char → Bool
  | [], s => s.isEmpty
  | '%' :: ps, s => likeStar (likeMatch ps) s
  | '_' :: ps, s =>
    match s with
    | [] => false
    | _ :: s' => likeMatch ps s'
  | c :: ps, s =>
    match s with
    | [] => false
    | ch :: s' => c == ch && likeMatch ps s'

/-- A nullable column LIKE a pattern: SQL three-valued logic collapses a
NULL operand to "not matched". -/
def likeB (col : Option String) (pat : String) : Bool :=
  match col with
  | none => false
  | some s => likeMatch pat.data s.data

/-- YEAR(col) = y under SQL NULL semantics (NULL compares unequal). -/
def yearB (d : Option DateTimeV) (y : Int) : Bool :=
  match d with
  | none => false
  | some dd => dd.year == y

/-- col >= v under SQL NULL semantics. -/
def geB (a : Option Int) (v : Int) : Bool :=
  match a with
  | none => false
  | some n => decide (v ≤ n)

/-- col <= v under SQL NULL semantics. -/
def leB (a : Option Int) (v : Int) : Bool :=
  match a with
  | none => false
  | some n => decide (n ≤ v)

/-- Does the pattern lead (start) the character list? -/
def charsLead : List Char → List Char → Bool
  | [], _ => true
  | _ :: _, [] => false
  | a :: as, b :: bs => a == b && charsLead as bs

/-- Does the pattern occur contiguously anywhere in the character list? -/
def charsOccur : List Char → List Char → Bool
  | p, [] => p.isEmpty
  | p, c :: s => charsLead p (c :: s) || charsOccur p s

/-- String sub occurs verbatim (contiguously) inside s. -/
def strContains (s sub : String) : Bool := charsOccur sub.data s.data

/-- Textual rendering of a DATETIME value, as the backend coerces it for
pattern matching. -/
def dtStr (d : DateTimeV) : String :=
  toString d.year ++ "-" ++ toString d.month ++ "-" ++ toString d.day

/-- The text the backend pattern-matches for a named column of a row (LIKE
coerces non-string columns to text); none for SQL NULL, and for names that
are not columns. -/
def colStr (r : KpopIdol) (f : String) : Option String :=
  if f = "Stage_Name" then some r.Stage_Name
  else if f = "Group" then r.Group
  else if f = "ig_name" then r.ig_name
  else if f = "Followers" then r.Followers.map toString
  else if f = "Gender_x" then r.Gender_x
  else if f = "Full_Name" then r.Full_Name
  else if f = "Korean_Name" then r.Korean_Name
  else if f = "K_Stage_Name" then r.K_Stage_Name
  else if f = "Date_of_Birth" then r.Date_of_Birth.map dtStr
  else if f = "Debut" then r.Debut.map dtStr
  else if f = "Company" then r.Company
  else if f = "Country" then r.Country
  else if f = "Second_Country" then r.Second_Country
  else if f = "Height" then r.Height
  else if f = "Weight" then r.Weight
  else if f = "Birthplace" then r.Birthplace
  else if f = "Other_Group" then r.Other_Group
  else if f = "Former_Group" then r.Former_Group
  else if f = "Gender_y" then r.Gender_y
  else if f = "age" then r.age.map toString
  else if f = "year_career" then r.year_career.map toString
  else none

/-- The dynamic SQL text built by search_idols (src/main.py lines 117-121):
the field name and the value are both spliced into the text by f-string
interpolation, and for Height or Weight the base assignment is overridden
by the variant with the IS NULL disjunct. -/
def search_query_str (field value : String) : String :=
  if field ∈ (["Height", "Weight"] : List String) then
    "SELECT * FROM kpop_idol_followers WHERE \x60" ++ field ++
      "\x60 LIKE \x27%" ++ value ++ "%\x27 OR \x60" ++ field ++ "\x60 IS NULL"
  else
    "SELECT * FROM kpop_idol_followers WHERE \x60" ++ field ++
      "\x60 LIKE \x27%" ++ value ++ "%\x27"

/-- search_idols binds no parameters: db.execute(text(query_str)) on
src/main.py line 123 is called with the query text alone. -/
def search_params : List (String × Param) := []

/-- Row predicate denoted by the search query, reading the interpolated
value at face value (a value containing quote characters would alter the
SQL text itself; the database's handling of such a statement is outside
this model). -/
def searchMatches (field value : String) (r : KpopIdol) : Bool :=
  if field ∈ (["Height", "Weight"] : List String) then
    likeB (colStr r field) ("%" ++ value ++ "%") || (colStr r field).isNone
  else
    likeB (colStr r field) ("%" ++ value ++ "%")

/-- The search endpoint, GET /search/ (src/main.py lines 102-127):
validation of field and value, then the dynamic query, 404 on an empty
result. -/
def search_idols (field value : Option String) (t : List KpopIdol) : Resp :=
  if !truthyS field || !truthyS value then
    Resp.err 400 "Both \x27field\x27 and \x27value\x27 are required."
  else if (field.getD "") ∉ table_columns then
    Resp.err 400 ("Field \x27" ++ field.getD "" ++ "\x27 not found in the data.")
  else if (t.filter (searchMatches (field.getD "") (value.getD ""))).isEmpty then
    Resp.err 404 "No idols found matching the search criteria."
  else
    Resp.ok ((t.filter (searchMatches (field.getD "") (value.getD ""))).map rowToMapping)

/-- The params dict accumulated by filter_idols (src/main.py lines
151-175), in insertion order. -/
def filter_params (gender country company : Option String)
    (debut_year age_from age_to : Option Int) : List (String × Param) :=
  (if truthyS gender then [("gender", Param.pS ("%" ++ gender.getD "" ++ "%"))] else []) ++
  (if truthyS country then [("country", Param.pS ("%" ++ country.getD "" ++ "%"))] else []) ++
  (if truthyS company then [("company", Param.pS ("%" ++ company.getD "" ++ "%"))] else []) ++
  (if truthyI debut_year then [("debut_year", Param.pI (debut_year.getD 0))] else []) ++
  (if truthyI age_from then [("age_from", Param.pI (age_from.getD 0))] else []) ++
  (if truthyI age_to then [("age_to", Param.pI (age_to.getD 0))] else [])

/-- The guard on src/main.py line 177: is any bound parameter NAME equal
to Height or Weight? -/
def hw_guard (gender country company : Option String)
    (debut_year age_from age_to : Option Int) : Bool :=
  (filter_params gender country company debut_year age_from age_to).any
    (fun p => p.1 == "Height" || p.1 == "Weight")

/-- The SQL text accumulated by filter_idols (src/main.py lines 150-178):
a fixed base, one AND fragment per truthy criterion, and the OR clause
when the line-177 guard fires. -/
def filter_query_str (gender country company : Option String)
    (debut_year age_from age_to : Option Int) : String :=
  "SELECT * FROM kpop_idol_followers WHERE 1=1" ++
  (if truthyS gender then " AND \x60Gender_x\x60 LIKE :gender" else "") ++
  (if truthyS country then " AND \x60Country\x60 LIKE :country" else "") ++
  (if truthyS company then " AND \x60Company\x60 LIKE :company" else "") ++
  (if truthyI debut_year then " AND YEAR(\x60Debut\x60) = :debut_year" else "") ++
  (if truthyI age_from then " AND \x60age\x60 >= :age_from" else "") ++
  (if truthyI age_to then " AND \x60age\x60 <= :age_to" else "") ++
  (if hw_guard gender country company debut_year age_from age_to then
    " OR (\x60Height\x60 IS NULL OR \x60Weight\x60 IS NULL)" else "")

/-- The AND chain of the filter query as a row predicate: one conjunct per
truthy criterion. -/
def filterPred (gender country company : Option String)
    (debut_year age_from age_to : Option Int) (r : KpopIdol) : Bool :=
  (if truthyS gender then likeB r.Gender_x ("%" ++ gender.getD "" ++ "%") else true) &&
  (if truthyS country then likeB r.Country ("%" ++ country.getD "" ++ "%") else true) &&
  (if truthyS company then likeB r.Company ("%" ++ company.getD "" ++ "%") else true) &&
  (if truthyI debut_year then yearB r.Debut (debut_year.getD 0) else true) &&
  (if truthyI age_from then geB r.age (age_from.getD 0) else true) &&
  (if truthyI age_to then leB r.age (age_to.getD 0) else true)

/-- Full predicate of the filter query: AND binds tighter than OR in SQL,
so the appended OR clause (when the guard fires) disjoins with the whole
AND chain. -/
def filterPredFull (gender country company : Option String)
    (debut_year age_from age_to : Option Int) (r : KpopIdol) : Bool :=
  filterPred gender country company debut_year age_from age_to r ||
  (hw_guard gender country company debut_year age_from age_to &&
    (r.Height.isNone || r.Weight.isNone))

/-- The filter endpoint, GET /filter/ (src/main.py lines 129-184). -/
def filter_idols (gender country company : Option String)
    (debut_year age_from age_to : Option Int) (t : List KpopIdol) : Resp :=
  if (t.filter (filterPredFull gender country company debut_year age_from age_to)).isEmpty then
    Resp.err 404 "No idols found matching the filter criteria."
  else
    Resp.ok ((t.filter (filterPredFull gender country company debut_year age_from age_to)).map rowToMapping)

/-- The list-all endpoint, GET / (src/main.py lines 67-73): an unfiltered
select, serialized row by row; no failure path exists. -/
def get_all_idols (t : List KpopIdol) : Resp :=
  Resp.ok (t.map rowToMapping)

/-- The by-stage-name endpoint, GET /idol/{stage_name} (src/main.py lines
75-86): exact match on the primary key column, 404 on an empty result. -/
def get_idol_by_stage_name (stage_name : String) (t : List KpopIdol) : Resp :=
  if (t.filter (fun r => r.Stage_Name == stage_name)).isEmpty then
    Resp.err 404 "Idol not found."
  else
    Resp.ok ((t.filter (fun r => r.Stage_Name == stage_name)).map rowToMapping)

/-- The by-group endpoint, GET /group/{group_name} (src/main.py lines
89-100): exact match on the Group column (a NULL group matches nothing),
404 on an empty result. -/
def get_idols_by_group (group_name : String) (t : List KpopIdol) : Resp :=
  if (t.filter (fun r => r.Group == some group_name)).isEmpty then
    Resp.err 404 "Group not found or has no members in the dataset."
  else
    Resp.ok ((t.filter (fun r => r.Group == some group_name)).map rowToMapping)

/-- A concrete sample row used to instantiate witnesses. -/
def sampleRow : KpopIdol :=
  ⟨"Jennie", some "BLACKPINK", some "jennierubyjane", some 100, some "Girl",
   some "Jennie Kim", some "KimJennie", some "Jennie", some ⟨1996, 1, 16⟩,
   some ⟨2016, 8, 8⟩, some "YG", some "South Korea", none, some "163", none,
   some "Seoul", none, none, some "Girl", some 27, some 8⟩

/-- A concrete sample row whose nullable columns are all NULL. -/
def sampleRowNull : KpopIdol :=
  ⟨"Mist", none, none, none, none, none, none, none, none, none, none, none,
   none, none, none, none, none, none, none, none, none⟩

/-! ### Helper lemmas about character occurrence -/

theorem charsLead_append (l t : List Char) : charsLead l (l ++ t) = true := by
  induction l with
  | nil => rfl
  | cons a as ih => simp [charsLead, ih]

theorem charsOccur_self_append (p t : List Char) : charsOccur p (p ++ t) = true := by
  cases p with
  | nil => cases t <;> simp [charsOccur, charsLead]
  | cons a as =>
    have h := charsLead_append (a :: as) t
    rw [List.cons_append] at h
    simp [charsOccur, h]

theorem charsOccur_append_left (l : List Char) {p r : List Char}
    (h : charsOccur p r = true) : charsOccur p (l ++ r) = true := by
  induction l with
  | nil => simpa using h
  | cons c cs ih => simp [charsOccur, ih]

theorem charsLead_append_right {p l : List Char} (t : List Char)
    (h : charsLead p l = true) : charsLead p (l ++ t) = true := by
  induction p generalizing l with
  | nil => rfl
  | cons a as ih =>
    cases l with
    | nil => simp [charsLead] at h
    | cons b bs =>
      simp only [charsLead, Bool.and_eq_true] at h
      simp [charsLead, h.1, ih h.2]

theorem charsOccur_append_right {p l : List Char} (t : List Char)
    (h : charsOccur p l = true) : charsOccur p (l ++ t) = true := by
  induction l with
  | nil =>
    simp only [charsOccur, List.isEmpty_iff] at h
    subst h
    simpa using charsOccur_self_append [] t
  | cons c cs ih =>
    simp only [charsOccur, Bool.or_eq_true] at h ⊢
    rcases h with h | h
    · exact Or.inl (charsLead_append_right t h)
    · exact Or.inr (ih h)

/-- Occurrence of b in the middle of a concatenation a ++ b ++ c. -/
theorem strContains_mid (a b c : String) : strContains (a ++ b ++ c) b = true := by
  unfold strContains
  rw [String.data_append, String.data_append, List.append_assoc]
  exact charsOccur_append_left _ (charsOccur_self_append _ _)

/-- Occurrence is preserved by appending on the right. -/
theorem strContains_right (s t b : String) (h : strContains s b = true) :
    strContains (s ++ t) b = true := by
  unfold strContains at h ⊢
  rw [String.data_append]
  exact charsOccur_append_right _ h

theorem charsLead_subset {p l : List Char} (h : charsLead p l = true) :
    ∀ c ∈ p, c ∈ l := by
  induction p generalizing l with
  | nil => intro c hc; cases hc
  | cons a as ih =>
    cases l with
    | nil => simp [charsLead] at h
    | cons b bs =>
      simp only [charsLead, Bool.and_eq_true, beq_iff_eq] at h
      intro c hc
      rcases List.mem_cons.mp hc with rfl | hc
      · exact h.1 ▸ List.mem_cons_self _ _
      · exact List.mem_cons_of_mem _ (ih h.2 c hc)

theorem charsOccur_subset {p l : List Char} (h : charsOccur p l = true) :
    ∀ c ∈ p, c ∈ l := by
  induction l with
  | nil =>
    simp only [charsOccur, List.isEmpty_iff] at h
    subst h
    intro c hc; cases hc
  | cons x xs ih =>
    simp only [charsOccur, Bool.or_eq_true] at h
    intro c hc
    rcases h with h | h
    · exact charsLead_subset h c hc
    · exact List.mem_cons_of_mem _ (ih h c hc)

/-- A string missing some character of sub cannot contain sub. -/
theorem strContains_eq_false {s sub : String} (c : Char)
    (hc : c ∈ sub.data) (hs : c ∉ s.data) : strContains s sub = false := by
  cases h : strContains s sub with
  | false => rfl
  | true => exact absurd (charsOccur_subset h c hc) hs

theorem not_mem_ite_data (b : Prop) [Decidable b] (x : String) (c : Char)
    (h : c ∉ x.data) : c ∉ (if b then x else "").data := by
  split
  · exact h
  · intro hmem; cases hmem

/-! ### Small boolean and list helpers -/

theorem ite_cond_iff (b x : Bool) :
    ((if b = true then x else true) = true) ↔ (b = true → x = true) := by
  cases b <;> simp

theorem any_ite_single {α : Type} (b : Prop) [Decidable b] (x : α) (f : α → Bool)
    (h : f x = false) : (if b then [x] else []).any f = false := by
  split
  · simp [List.any, h]
  · rfl

theorem all_ite_single {α : Type} (b : Prop) [Decidable b] (x : α) (f : α → Bool)
    (h : f x = true) : (if b then [x] else []).all f = true := by
  split
  · simp [List.all, h]
  · rfl

/-- The line-177 guard of filter_idols never fires: its params dict only
ever carries the six fixed keys. -/
theorem hw_guard_false (gender country company : Option String)
    (debut_year age_from age_to : Option Int) :
    hw_guard gender country company debut_year age_from age_to = false := by
  unfold hw_guard filter_params
  split_ifs <;> rfl

/-- Exactly one matching row survives filtering by a stage name that is
present, when stage names are pairwise distinct. -/
theorem stage_filter_unique (t : List KpopIdol) (name : String)
    (hnd : (t.map KpopIdol.Stage_Name).Nodup)
    (hmem : name ∈ t.map KpopIdol.Stage_Name) :
    ∃ r, r.Stage_Name = name ∧
      t.filter (fun x => x.Stage_Name == name) = [r] := by
  induction t with
  | nil => cases hmem
  | cons a t ih =>
    rw [List.map_cons, List.nodup_cons] at hnd
    rcases List.mem_cons.mp hmem with heq | hmem'
    · refine ⟨a, heq.symm, ?_⟩
      rw [List.filter_cons_of_pos (by simp [heq])]
      have hnil : t.filter (fun x => x.Stage_Name == name) = [] := by
        rw [List.filter_eq_nil_iff]
        intro x hx
        simp only [beq_iff_eq]
        intro hxn
        exact hnd.1 (heq ▸ hxn ▸ List.mem_map_of_mem KpopIdol.Stage_Name hx)
      rw [hnil]
    · have hne : ¬(a.Stage_Name == name) = true := by
        simp only [beq_iff_eq]
        intro han
        exact hnd.1 (han ▸ hmem')
      rw [List.filter_cons, if_neg hne]
      exact ih hnd.2 hmem'

/-! ### The claims -/

/-- Claim C1, counterexample: for field Group and value BTS, the value
appears verbatim inside the constructed search query text, and the query
is executed with an empty parameter set, refuting "the value is passed to
the database only as a bound parameter". -/
theorem c1_counterexample :
    strContains (search_query_str "Group" "BTS") "BTS" = true ∧
    search_params = [] :=
  ⟨by decide, rfl⟩

/-- Claim C1 as amended: for every recognized or unrecognized field and
every value, BOTH the field name and the value are interpolated directly
into the constructed query text, and no parameter at all is bound for the
search query. -/
theorem c1_theorem (field value : String) :
    strContains (search_query_str field value) value = true ∧
    strContains (search_query_str field value) field = true ∧
    search_params = [] := by
  unfold search_query_str
  refine ⟨?_, ?_, rfl⟩ <;> split
  · exact strContains_right _ _ _ (strContains_right _ _ _ (strContains_mid _ _ _))
  · exact strContains_mid _ _ _
  · exact strContains_mid _ _ _
  · exact strContains_right _ _ _ (strContains_right _ _ _ (strContains_mid _ _ _))

/-- Claim C2, counterexample: on the empty table, the filter endpoint with
no criteria does not return the table with status 200; it fails with 404,
because the zero-row result trips the not-found branch. -/
theorem c2_counterexample :
    isOk (filter_idols none none none none none none ([] : List KpopIdol)) = false ∧
    filter_idols none none none none none none ([] : List KpopIdol) =
      Resp.err 404 "No idols found matching the filter criteria." :=
  ⟨rfl, rfl⟩

/-- Claim C2 as amended: for every NON-EMPTY table state, the filter
endpoint with no criteria supplied returns the entire table with status
200, one mapping per row. -/
theorem c2_theorem (t : List KpopIdol) (h : t ≠ []) :
    filter_idols none none none none none none t = Resp.ok (t.map rowToMapping) ∧
    (t.map rowToMapping).length = t.length := by
  have hfilter : t.filter (filterPredFull none none none none none none) = t :=
    List.filter_eq_self.mpr (fun a _ => rfl)
  constructor
  · unfold filter_idols
    rw [hfilter]
    cases t with
    | nil => exact absurd rfl h
    | cons a t' => rfl
  · simp

theorem c2_witness :
    filter_idols none none none none none none [sampleRow] =
      Resp.ok ([sampleRow].map rowToMapping) ∧
    ([sampleRow].map rowToMapping).length = [sampleRow].length :=
  c2_theorem [sampleRow] (by simp)

/-- Claim C3: for every combination of the six optional filter inputs, the
bound parameter names are never Height or Weight, the line-177 guard never
fires, and the constructed filter query never contains the OR clause
relaxing height/weight nullity. -/
theorem c3_theorem (gender country company : Option String)
    (debut_year age_from age_to : Option Int) :
    (filter_params gender country company debut_year age_from age_to).all
      (fun p => !(p.1 == "Height") && !(p.1 == "Weight")) = true ∧
    hw_guard gender country company debut_year age_from age_to = false ∧
    strContains (filter_query_str gender country company debut_year age_from age_to)
      " OR (\x60Height\x60 IS NULL OR \x60Weight\x60 IS NULL)" = false := by
  refine ⟨?_, hw_guard_false _ _ _ _ _ _, ?_⟩
  · unfold filter_params
    simp only [List.all_append, Bool.and_eq_true]
    refine ⟨⟨⟨⟨⟨?_, ?_⟩, ?_⟩, ?_⟩, ?_⟩, ?_⟩ <;>
      exact all_ite_single _ _ _ rfl
  · apply strContains_eq_false 'U'
    · decide
    · unfold filter_query_str
      rw [hw_guard_false]
      rw [if_neg (by decide : ¬ (false = true))]
      simp only [String.data_append, List.mem_append, not_or]
      refine ⟨⟨⟨⟨⟨⟨⟨?_, ?_⟩, ?_⟩, ?_⟩, ?_⟩, ?_⟩, ?_⟩, ?_⟩ <;>
        first
        | exact not_mem_ite_data _ _ _ (by decide)
        | decide

/-- Claim C4: a row of the table is returned by the filter endpoint's
query exactly when it satisfies every supplied criterion — substring
(LIKE) matches on gender, country and company, an exact match on the year
of the debut date, and the inclusive age range. All supplied criteria
combine with logical AND. -/
theorem c4_theorem (gender country company : Option String)
    (debut_year age_from age_to : Option Int) (t : List KpopIdol)
    (r : KpopIdol) (hr : r ∈ t) :
    (r ∈ t.filter (filterPredFull gender country company debut_year age_from age_to) ↔
      ((truthyS gender = true → likeB r.Gender_x ("%" ++ gender.getD "" ++ "%") = true) ∧
       (truthyS country = true → likeB r.Country ("%" ++ country.getD "" ++ "%") = true) ∧
       (truthyS company = true → likeB r.Company ("%" ++ company.getD "" ++ "%") = true) ∧
       (truthyI debut_year = true → yearB r.Debut (debut_year.getD 0) = true) ∧
       (truthyI age_from = true → geB r.age (age_from.getD 0) = true) ∧
       (truthyI age_to = true → leB r.age (age_to.getD 0) = true))) := by
  simp only [List.mem_filter, hr, true_and, filterPredFull, hw_guard_false,
    Bool.false_and, Bool.or_false, filterPred, Bool.and_eq_true, ite_cond_iff,
    and_assoc]

theorem c4_witness :
    sampleRow ∈ List.filter
      (filterPredFull (some "Girl") none none none (some 20) (some 30))
      [sampleRow] :=
  (c4_theorem (some "Girl") none none none (some 20) (some 30) [sampleRow]
    sampleRow (by simp)).mpr (by decide)

/-- Claim C5: with pairwise-distinct stage names (the primary-key
invariant), a stage name present in the table yields exactly one returned
row, whose stage name is the requested one; an absent stage name fails
with 404 "Idol not found."; and no other case fails. -/
theorem c5_theorem (t : List KpopIdol) (name : String)
    (hnd : (t.map KpopIdol.Stage_Name).Nodup) :
    (name ∈ t.map KpopIdol.Stage_Name →
      ∃ r, r.Stage_Name = name ∧
        get_idol_by_stage_name name t = Resp.ok [rowToMapping r]) ∧
    (name ∉ t.map KpopIdol.Stage_Name →
      get_idol_by_stage_name name t = Resp.err 404 "Idol not found.") := by
  constructor
  · intro hmem
    obtain ⟨r, hrn, hfil⟩ := stage_filter_unique t name hnd hmem
    refine ⟨r, hrn, ?_⟩
    unfold get_idol_by_stage_name
    rw [hfil]
    rfl
  · intro hmem
    have hfil : t.filter (fun x => x.Stage_Name == name) = [] := by
      rw [List.filter_eq_nil_iff]
      intro x hx
      simp only [beq_iff_eq]
      intro hxn
      exact hmem (hxn ▸ List.mem_map_of_mem KpopIdol.Stage_Name hx)
    unfold get_idol_by_stage_name
    rw [hfil]
    rfl

theorem c5_witness :
    (∃ r, r.Stage_Name = "Jennie" ∧
      get_idol_by_stage_name "Jennie" [sampleRow, sampleRowNull] =
        Resp.ok [rowToMapping r]) ∧
    get_idol_by_stage_name "Nope" [sampleRow, sampleRowNull] =
      Resp.err 404 "Idol not found." :=
  ⟨(c5_theorem [sampleRow, sampleRowNull] "Jennie" (by decide)).1 (by decide),
   (c5_theorem [sampleRow, sampleRowNull] "Nope" (by decide)).2 (by decide)⟩

/-- Claim C6: a group name carried by at least one row yields a non-empty
result whose rows all carry that group name; a group name matching zero
rows fails with 404 "Group not found or has no members in the dataset.". -/
theorem c6_theorem (t : List KpopIdol) (name : String) :
    ((∃ r ∈ t, r.Group = some name) →
      ∃ l, l ≠ [] ∧ (∀ r ∈ l, r.Group = some name) ∧
        get_idols_by_group name t = Resp.ok (l.map rowToMapping)) ∧
    ((∀ r ∈ t, r.Group ≠ some name) →
      get_idols_by_group name t =
        Resp.err 404 "Group not found or has no members in the dataset.") := by
  constructor
  · rintro ⟨r, hrt, hrg⟩
    have hmem : r ∈ t.filter (fun x => x.Group == some name) :=
      List.mem_filter.mpr ⟨hrt, by simp [hrg]⟩
    have hne : t.filter (fun x => x.Group == some name) ≠ [] := by
      intro hnil
      rw [hnil] at hmem
      cases hmem
    refine ⟨t.filter (fun x => x.Group == some name), hne, ?_, ?_⟩
    · intro x hx
      have := (List.mem_filter.mp hx).2
      simpa using this
    · unfold get_idols_by_group
      rw [if_neg (by simpa [List.isEmpty_iff] using hne)]
  · intro hall
    have hfil : t.filter (fun x => x.Group == some name) = [] := by
      rw [List.filter_eq_nil_iff]
      intro x hx
      simpa using hall x hx
    unfold get_idols_by_group
    rw [hfil]
    rfl

theorem c6_witness :
    (∃ l, l ≠ [] ∧ (∀ r ∈ l, r.Group = some "BLACKPINK") ∧
      get_idols_by_group "BLACKPINK" [sampleRow, sampleRowNull] =
        Resp.ok (l.map rowToMapping)) ∧
    get_idols_by_group "Nope" [sampleRow] =
      Resp.err 404 "Group not found or has no members in the dataset." :=
  ⟨(c6_theorem [sampleRow, sampleRowNull] "BLACKPINK").1
      ⟨sampleRow, by decide, by decide⟩,
   (c6_theorem [sampleRow] "Nope").2 (by decide)⟩

/-- Claim C7, counterexample: supplying field Group (a recognized column)
together with an EMPTY value string produces a 400 response even though
neither parameter is missing and the field is recognized — refuting the
claimed "only if". -/
theorem c7_counterexample :
    is400 (search_idols (some "Group") (some "") ([] : List KpopIdol)) = true ∧
    (some "Group" : Option String).isSome = true ∧
    (some "" : Option String).isSome = true ∧
    "Group" ∈ table_columns := by
  decide

/-- Claim C7 as amended: the search endpoint answers 400 exactly when the
field parameter is missing or empty, the value parameter is missing or
empty, or the field does not name a declared column; and in the
recognized-field failure case the message names the offending field. -/
theorem c7_theorem (field value : Option String) (t : List KpopIdol) :
    (is400 (search_idols field value t) = true ↔
      (truthyS field = false ∨ truthyS value = false ∨
        field.getD "" ∉ table_columns)) ∧
    (truthyS field = true → truthyS value = true →
      field.getD "" ∉ table_columns →
      search_idols field value t =
        Resp.err 400 ("Field \x27" ++ field.getD "" ++ "\x27 not found in the data.")) := by
  constructor
  · cases hf : truthyS field with
    | false => simp [search_idols, hf, is400]
    | true =>
      cases hv : truthyS value with
      | false => simp [search_idols, hf, hv, is400]
      | true =>
        by_cases hmem : field.getD "" ∈ table_columns
        · simp only [search_idols, hf, hv, Bool.not_true, Bool.or_self]
          rw [if_neg (by decide : ¬ (false = true)), if_neg (not_not_intro hmem)]
          split <;> simp [is400, hf, hv, hmem]
        · simp only [search_idols, hf, hv, Bool.not_true, Bool.or_self]
          rw [if_neg (by decide : ¬ (false = true)), if_pos hmem]
          simp [is400, hmem]
  · intro ha hb hc
    simp only [search_idols, ha, hb, Bool.not_true, Bool.or_self]
    rw [if_neg (by decide : ¬ (false = true)), if_pos hc]

theorem c7_witness :
    is400 (search_idols none (some "x") ([] : List KpopIdol)) = true ∧
    search_idols (some "Nope") (some "x") ([] : List KpopIdol) =
      Resp.err 400 "Field \x27Nope\x27 not found in the data." :=
  ⟨(c7_theorem none (some "x") []).1.mpr (Or.inl rfl),
   (c7_theorem (some "Nope") (some "x") []).2 rfl rfl (by decide)⟩

/-- Claim C8: when the searched field is Height or Weight, every row whose
column is NULL matches, whatever the search value; for any other field
name, a NULL column never matches. -/
theorem c8_theorem (field value : String) (r : KpopIdol) :
    ((field = "Height" ∨ field = "Weight") → colStr r field = none →
      searchMatches field value r = true) ∧
    (field ≠ "Height" → field ≠ "Weight" → colStr r field = none →
      searchMatches field value r = false) := by
  constructor
  · intro hf hnone
    unfold searchMatches
    rw [if_pos (by simpa using hf)]
    simp [hnone, likeB]
  · intro h1 h2 hnone
    unfold searchMatches
    rw [if_neg (by simp [h1, h2])]
    simp [hnone, likeB]

theorem c8_witness :
    searchMatches "Height" "17" sampleRowNull = true ∧
    searchMatches "Group" "BLACK" sampleRowNull = false :=
  ⟨( c8_theorem "Height" "17" sampleRowNull).1 (Or.inl rfl) (by decide),
   ( c8_theorem "Group" "BLACK" sampleRowNull).2 (by decide) (by decide) (by decide)⟩

theorem rowToMapping_keys (r : KpopIdol) :
    (rowToMapping r).map Prod.fst = table_columns := rfl

/-- Claim C9: the list-all endpoint never fails: for every table state it
answers 200 with one mapping per row (an empty table gives an empty
sequence), and every mapping carries exactly the declared columns as keys,
missing values being none rather than absent keys. -/
theorem c9_theorem (t : List KpopIdol) :
    ∃ rows, get_all_idols t = Resp.ok rows ∧ rows.length = t.length ∧
      ∀ m ∈ rows, m.map Prod.fst = table_columns := by
  refine ⟨t.map rowToMapping, rfl, by simp, ?_⟩
  intro m hm
  obtain ⟨r, _, rfl⟩ := List.mem_map.mp hm
  exact rowToMapping_keys r

theorem c9_witness :
    ∃ rows, get_all_idols [sampleRow, sampleRowNull] = Resp.ok rows ∧
      rows.length = [sampleRow, sampleRowNull].length ∧
      ∀ m ∈ rows, m.map Prod.fst = table_columns :=
  c9_theorem [sampleRow, sampleRowNull]

/-- Claim C10: supplying 0 for debut_year, age_from or age_to, or the
empty string for gender, country or company, behaves exactly as omitting
that parameter: the response, the query text and the bound parameters all
coincide with the ones for the absent parameter. -/
theorem c10_theorem (gender country company : Option String)
    (debut_year age_from age_to : Option Int) (t : List KpopIdol) :
    (filter_idols (some "") country company debut_year age_from age_to t =
       filter_idols none country company debut_year age_from age_to t ∧
     filter_query_str (some "") country company debut_year age_from age_to =
       filter_query_str none country company debut_year age_from age_to ∧
     filter_params (some "") country company debut_year age_from age_to =
       filter_params none country company debut_year age_from age_to) ∧
    (filter_idols gender (some "") company debut_year age_from age_to t =
       filter_idols gender none company debut_year age_from age_to t ∧
     filter_query_str gender (some "") company debut_year age_from age_to =
       filter_query_str gender none company debut_year age_from age_to ∧
     filter_params gender (some "") company debut_year age_from age_to =
       filter_params gender none company debut_year age_from age_to) ∧
    (filter_idols gender country (some "") debut_year age_from age_to t =
       filter_idols gender country none debut_year age_from age_to t ∧
     filter_query_str gender country (some "") debut_year age_from age_to =
       filter_query_str gender country none debut_year age_from age_to ∧
     filter_params gender country (some "") debut_year age_from age_to =
       filter_params gender country none debut_year age_from age_to) ∧
    (filter_idols gender country company (some 0) age_from age_to t =
       filter_idols gender country company none age_from age_to t ∧
     filter_query_str gender country company (some 0) age_from age_to =
       filter_query_str gender country company none age_from age_to ∧
     filter_params gender country company (some 0) age_from age_to =
       filter_params gender country company none age_from age_to) ∧
    (filter_idols gender country company debut_year (some 0) age_to t =
       filter_idols gender country company debut_year none age_to t ∧
     filter_query_str gender country company debut_year (some 0) age_to =
       filter_query_str gender country company debut_year none age_to ∧
     filter_params gender country company debut_year (some 0) age_to =
       filter_params gender country company debut_year none age_to) ∧
    (filter_idols gender country company debut_year age_from (some 0) t =
       filter_idols gender country company debut_year age_from none t ∧
     filter_query_str gender country company debut_year age_from (some 0) =
       filter_query_str gender country company debut_year age_from none ∧
     filter_params gender country company debut_year age_from (some 0) =
       filter_params gender country company debut_year age_from none) :=
  ⟨⟨rfl, rfl, rfl⟩, ⟨rfl, rfl, rfl⟩, ⟨rfl, rfl, rfl⟩,
   ⟨rfl, rfl, rfl⟩, ⟨rfl, rfl, rfl⟩, ⟨rfl, rfl, rfl⟩⟩
